import Mathlib

/-!
# Expense bot webhook: a shallow embedding of `src/api/webhook.js`

The single source file exports one asynchronous function, `handler(req, res)`,
and one helper, `sendWhatsAppMessage(to, body)`.  The handler is straight-line
orchestration of external services, so the embedding is

* a type `JSVal` of the JavaScript values that JSON data can hold, with the
  language operations the handler applies to them (property access, optional
  chaining, truthiness, conversion to string inside template literals);
* the string clean-up applied to the model output
  (`.replace(/(three backticks)json|(three backticks)/g, '').trim()`);
* a record `Env` holding the answers of the outside world (environment
  variable, datastore, HTTP fetches, object storage, the generative model, the
  clock) and the built-in `JSON.parse`;
* `handler env req`, which returns the HTTP response together with the ordered
  list of external calls performed (the effect trace).

JavaScript exceptions are modelled explicitly: a computation of type `Run α`
carries the effects performed so far and either a value or the fact that an
exception was thrown.
-/

namespace ExpenseBot

/-! ## JavaScript values -/

/-- A JavaScript number as it can come out of JSON data.  The handler never
computes with numbers: it only tests them for truthiness and converts them to
text.  A number is therefore kept as zero (the sign of zero is not
distinguished: `0` and `-0` are both falsy, both print as `0`, and are equal
under `===`), as a non-zero decimal `± mant × 10 ^ exp`, or as an infinity
(what `JSON.parse` gives for a literal beyond the range of a double). `NaN`
cannot come out of JSON data. -/
inductive JSNum where
  | zero
  | dec (neg : Bool) (mant : Nat) (exp : Int) (hpos : 0 < mant)
  | inf (neg : Bool)

/-- The values JSON data can hold in JavaScript, plus `undefined` (the result of
reading a missing property). An object is kept as its list of own properties;
a property is looked up by the first entry carrying its key. A string is a
list of Unicode characters (the code units of JavaScript are not modelled: the
handler only compares strings with ASCII literals, removes ASCII fences and
trims white space, all of which lies in the basic plane). -/
inductive JSVal where
  | undefined
  | null
  | bool (b : Bool)
  | num (n : JSNum)
  | str (s : String)
  | arr (xs : List JSVal)
  | obj (kvs : List (String × JSVal))

/-- The `null` and `undefined` test used by property access and `?.`. -/
def nullish : JSVal → Bool
  | .undefined => true
  | .null => true
  | _ => false

/-- JavaScript truthiness (`ToBoolean`). -/
def truthy : JSVal → Bool
  | .undefined => false
  | .null => false
  | .bool b => b
  | .num .zero => false
  | .num (.dec _ _ _ _) => true
  | .num (.inf _) => true
  | .str s => s.data.length != 0
  | .arr _ => true
  | .obj _ => true

/-- Own-property lookup in an object. -/
def lookupKey : List (String × JSVal) → String → Option JSVal
  | [], _ => none
  | (k, v) :: rest, key => if k == key then some v else lookupKey rest key

/-- The value of `v?.key` for the property names the handler reads (`object`,
`entry`, `changes`, `value`, `messages`, `from`, `type`, `image`, `id`,
`mime_type`, `name`, `tenants`, `subscription_status`, `tenant_id`, `url`,
`total_amount`, `merchant_name`, `category`).  None of these names exists on
the prototype of an array, a string, a number or a boolean, so only objects
can answer with something else than `undefined`. -/
def prop (v : JSVal) (key : String) : JSVal :=
  match v with
  | .obj kvs => (lookupKey kvs key).getD .undefined
  | _ => .undefined

/-- The value of `v?.[0]`: the first element of an array, the first character
of a string, the property `"0"` of an object, `undefined` otherwise. -/
def index0 (v : JSVal) : JSVal :=
  match v with
  | .arr (x :: _) => x
  | .str s =>
    match s.data with
    | c :: _ => .str (String.mk [c])
    | [] => .undefined
  | .obj kvs => (lookupKey kvs "0").getD .undefined
  | _ => .undefined

/-- The comparison `v === 'literal'`. -/
def isStr (v : JSVal) (lit : String) : Bool :=
  match v with
  | .str s => s == lit
  | _ => false

/-- The comparison `v === process.env.NAME`, where an environment variable is
a string, or `undefined` when it is not set. -/
def eqEnv (v : JSVal) (envVar : Option String) : Bool :=
  match v, envVar with
  | .str s, some t => s == t
  | .undefined, none => true
  | _, _ => false

/-- The value `a || b`. -/
def orElse (a b : JSVal) : JSVal := if truthy a then a else b

/-! ## Conversion to text (`ToString`, as applied by template literals) -/

/-- Removes trailing zero digits from a mantissa, raising the exponent. -/
def normalize : Nat → Nat → Int → Nat × Int
  | 0, m, e => (m, e)
  | fuel + 1, m, e =>
    if m % 10 = 0 ∧ m ≠ 0 then normalize fuel (m / 10) (e + 1) else (m, e)

/-- The text of the positive number `digits × 10 ^ (n - k)`, where `digits`
has `k` decimal digits and no trailing zero (`Number::toString`, radix 10). -/
def renderDigits (ds : List Char) (n : Int) : String :=
  let k : Int := ds.length
  if k ≤ n ∧ n ≤ 21 then String.mk (ds ++ List.replicate (n - k).toNat '0')
  else if 0 < n ∧ n ≤ 21 then String.mk (ds.take n.toNat ++ '.' :: ds.drop n.toNat)
  else if -6 < n ∧ n ≤ 0 then String.mk ('0' :: '.' :: List.replicate (-n).toNat '0' ++ ds)
  else
    let e := n - 1
    let sign := if e < 0 then '-' else '+'
    let es := Nat.toDigits 10 e.natAbs
    match ds with
    | [] => ""
    | [d] => String.mk (d :: 'e' :: sign :: es)
    | d :: rest => String.mk (d :: '.' :: rest ++ 'e' :: sign :: es)

/-- The text of a number. -/
def renderNum : JSNum → String
  | .zero => "0"
  | .dec neg mant exp _ =>
    let me := normalize mant mant exp
    let ds := Nat.toDigits 10 me.1
    let body := renderDigits ds (ds.length + me.2)
    if neg then "-" ++ body else body
  | .inf neg => if neg then "-Infinity" else "Infinity"

mutual
/-- The result of `ToString(v)`: `none` when the conversion throws a
`TypeError`.  A plain object converts to `[object Object]` through the
inherited `toString`, unless it has an own property named `toString` (which,
coming from JSON, is not callable: the inherited `valueOf` then returns the
object itself and the conversion fails).  An array converts by joining the
conversions of its elements with commas. -/
def toStr : JSVal → Option String
  | .undefined => some "undefined"
  | .null => some "null"
  | .bool true => some "true"
  | .bool false => some "false"
  | .num n => some (renderNum n)
  | .str s => some s
  | .arr xs => joinElems xs
  | .obj kvs => if (lookupKey kvs "toString").isSome then none else some "[object Object]"
termination_by structural v => v
/-- The method `Array.prototype.join` with the default separator: `null` and
`undefined` elements contribute the empty string. -/
def joinElems : List JSVal → Option String
  | [] => some ""
  | x :: rest =>
    match (if nullish x then some "" else toStr x), joinElems rest with
    | some a, some b => some (if rest.isEmpty then a else a ++ "," ++ b)
    | _, _ => none
termination_by structural xs => xs
end

/-! ## Clean-up of the model output -/

/-- The three-backtick Markdown fence. -/
def fence : List Char := "```".data

/-- The fence followed by the language tag `json`. -/
def fenceJson : List Char := "```json".data

/-- Whether `p` is an initial segment of `s`. -/
def startsWith : List Char → List Char → Bool
  | [], _ => true
  | _ :: _, [] => false
  | a :: p, b :: s => a == b && startsWith p s

/-- The method call `.replace(/FENCEjson|FENCE/g, '')` on the list of characters:
a left-to-right scan which, at each position, drops the seven characters of
the tagged fence if they are there, else the three characters of the bare
fence if they are there, else keeps the character.  The first argument counts
the characters of the current match that remain to be dropped. -/
def stripFencesAux : Nat → List Char → List Char
  | _, [] => []
  | skip + 1, _ :: rest => stripFencesAux skip rest
  | 0, c :: rest =>
    if startsWith fenceJson (c :: rest) then stripFencesAux 6 rest
    else if startsWith fence (c :: rest) then stripFencesAux 2 rest
    else c :: stripFencesAux 0 rest

/-- The global replacement of both fence forms by the empty string. -/
def stripFences (s : List Char) : List Char := stripFencesAux 0 s

/-- The characters removed by `String.prototype.trim` (white space and line
terminators of ECMAScript). -/
def isJSSpace (c : Char) : Bool :=
  let n := c.toNat
  n == 0x09 || n == 0x0A || n == 0x0B || n == 0x0C || n == 0x0D || n == 0x20 ||
  n == 0xA0 || n == 0x1680 || (0x2000 ≤ n && n ≤ 0x200A) || n == 0x2028 ||
  n == 0x2029 || n == 0x202F || n == 0x205F || n == 0x3000 || n == 0xFEFF

/-- The method `String.prototype.trim` on a list of characters. -/
def trimChars (s : List Char) : List Char :=
  ((s.dropWhile isJSSpace).reverse.dropWhile isJSSpace).reverse

/-- The expression `result.response.text().replace(/FENCEjson|FENCE/g, '').trim()`
of line 186. -/
def cleanup (text : String) : String := String.mk (trimChars (stripFences text.data))

/-- The method `String.prototype.trim`. -/
def trim (text : String) : String := String.mk (trimChars text.data)

/-! ## Effects, exceptions and the outside world -/

/-- The bytes of a downloaded file. -/
abbrev Bytes := List Nat

/-- The external calls of the handler, in the order the code makes them. -/
inductive Effect where
  /-- The query `supabase.from('users').select(..).eq('phone_number', phone).single()`. -/
  | userLookup (phone : JSVal)
  /-- The POST made by `sendWhatsAppMessage(to, body)` to the messaging API. -/
  | sendMessage (recipient : JSVal) (body : String)
  /-- The GET of the media information of `mediaId` (line 127). -/
  | mediaInfo (mediaId : String)
  /-- The GET of the binary content at the resolved address (line 140). -/
  | download (url : JSVal)
  /-- The call `supabase.storage.from('receipts').upload(filename, buffer, ..)`. -/
  | storageUpload (filename : String) (buffer : Bytes) (contentType : JSVal)
  /-- The call `finalModel.generateContent([prompt, inlineData])`. -/
  | aiCall (buffer : Bytes) (mimeType : JSVal)
  /-- The call `supabase.from('transactions').insert(record)`. -/
  | recordInsert (record : JSVal)

/-- The outcome of an awaited call that may reject. -/
inductive Fetched (α : Type) where
  | ok (a : α)
  | failed

/-- The answer `{ data, error }` of the datastore client. -/
structure LookupResult where
  data : JSVal
  error : JSVal

/-- What the handler reads from the outside world.  The datastore and storage
clients report failure through the `error` field of their answer (they do not
reject); the HTTP fetches, the reading of their bodies and the model call may
reject.  Each answer is a function of the arguments of the call. -/
structure Env where
  /-- The variable `process.env.WHATSAPP_VERIFY_TOKEN`. -/
  verifyToken : Option String
  /-- The answer of the user lookup for a phone number. -/
  lookupUser : JSVal → LookupResult
  /-- The parsed JSON answer of the media-information request. -/
  mediaInfo : String → Fetched JSVal
  /-- The bytes answered by the binary download. -/
  download : JSVal → Fetched Bytes
  /-- The value of `Date.now()`. -/
  now : Nat
  /-- The `error` field answered by the storage upload. -/
  upload : String → Bytes → JSVal → JSVal
  /-- The `publicUrl` computed by `getPublicUrl(filename)`. -/
  publicUrl : String → String
  /-- The text `result.response.text()` of the model call. -/
  generate : Bytes → JSVal → Fetched String
  /-- The built-in `JSON.parse`: `none` when it throws a `SyntaxError`. -/
  jsonParse : String → Option JSVal
  /-- The `error` field answered by the record insert; the handler only logs
  it (line 211), so no definition below reads this field. -/
  insert : JSVal → JSVal

/-- A run of a piece of code: the effects it performed, and its value, or
`none` when it threw an exception. -/
structure Run (α : Type) where
  trace : List Effect
  result : Option α

namespace Run

/-- Normal completion with a value. -/
def ret {α : Type} (a : α) : Run α := ⟨[], some a⟩

/-- A thrown exception. -/
def throw {α : Type} : Run α := ⟨[], none⟩

/-- Sequencing: the second part runs only if the first did not throw. -/
def andThen {α β : Type} (m : Run α) (f : α → Run β) : Run β :=
  match m.result with
  | none => ⟨m.trace, none⟩
  | some a => ⟨m.trace ++ (f a).trace, (f a).result⟩

/-- One external call. -/
def emit (e : Effect) : Run Unit := ⟨[e], some ()⟩

/-- A value that may be missing because computing it threw. -/
def ofOption {α : Type} : Option α → Run α
  | some a => ret a
  | none => throw

/-- The result of an awaited call: a rejection is a thrown exception. -/
def ofFetched {α : Type} : Fetched α → Run α
  | .ok a => ret a
  | .failed => throw

/-- The statement `try { body } catch (err) { onThrow }`. -/
def tryCatch {α : Type} (body : Run α) (onThrow : Run α) : Run α :=
  match body.result with
  | some _ => body
  | none => ⟨body.trace ++ onThrow.trace, onThrow.result⟩

end Run

instance : Monad Run where
  pure := Run.ret
  bind := Run.andThen

/-- The property access `v.key`, which throws a `TypeError` on `null` and
`undefined`. -/
def member (v : JSVal) (key : String) : Run JSVal :=
  if nullish v then Run.throw else Run.ret (prop v key)

/-- The value of `${v}` inside a template literal. -/
def render (v : JSVal) : Run String := Run.ofOption (toStr v)

/-! ## The handler -/

/-- An HTTP request as the handler reads it. -/
structure Request where
  method : String
  query : List (String × JSVal)
  body : JSVal

/-- The HTTP response: `res.status(status)` followed by `.send(body)` or
`.json(body)`. -/
structure Response where
  status : Nat
  body : JSVal

/-- The function `sendWhatsAppMessage(to, body)` (lines 14-40).  The log line
16 converts `to` to text before the `try`; the request itself and the reading
of its answer are inside a `try` whose `catch` only logs, so nothing is thrown
once the request is made. -/
def sendWhatsAppMessage (recipient : JSVal) (body : String) : Run Unit := do
  let _ ← render recipient
  Run.emit (.sendMessage recipient body)

/-- The response of line 224. -/
def eventReceived : Response := ⟨200, .str "EVENT_RECEIVED"⟩

/-- The object substituted on line 194 when `JSON.parse` throws. -/
def sentinel : JSVal :=
  .obj [("merchant_name", .str "Unreadable"), ("total_amount", .num .zero)]

/-- The text of the inactive-account notice (line 100). -/
def inactiveNotice (userName : String) : String :=
  "Hi " ++ userName ++ ", account Inactive."

/-- The text of the greeting sent in answer to a text message (line 105). -/
def greeting (userName : String) : String :=
  "👋 Hi " ++ userName ++ "! Send me a receipt photo."

/-- The text of the images-only rejection notice (line 113). -/
def pdfNotice : String :=
  "⚠️ Hackathon Demo: Please send an **Image (JPG/PNG)** of the document. Processing PDFs takes too long for the live demo!"

/-- The text of the processing acknowledgment (line 123). -/
def processingNotice : String := "🤖 Reading your receipt..."

/-- The text of the generic failure reply (line 218). -/
def failureNotice : String := "❌ Error reading file. Please try again."

/-- The text of the confirmation reply (line 214). -/
def confirmation (merchant amount : String) : String :=
  "✅ Saved!\n\n🏪 " ++ merchant ++ "\n💰 ₹" ++ amount

/-- The object passed to `insert` on lines 198-209. -/
def transactionRecord (user extractedData : JSVal) (publicUrl : String)
    (totalAmount merchantName category : JSVal) : JSVal :=
  .obj [("tenant_id", prop user "tenant_id"),
        ("user_id", prop user "id"),
        ("amount", orElse totalAmount (.num .zero)),
        ("merchant", orElse merchantName (.str "Unknown")),
        ("status", .str "Pending"),
        ("image_url", .str publicUrl),
        ("metadata", extractedData),
        ("category", category)]

/-- The body of the inner `try` block (lines 126-214): resolve the media
address, download, upload, extract, insert, confirm. -/
def processImage (env : Env) (user senderPhone mediaId mimeType : JSVal) : Run Unit := do
  let idText ← render mediaId
  Run.emit (.mediaInfo idText)
  let mediaData ← Run.ofFetched (env.mediaInfo idText)
  let mediaUrl ← member mediaData "url"
  if truthy mediaUrl then
    Run.emit (.download mediaUrl)
    let buffer ← Run.ofFetched (env.download mediaUrl)
    let tenantText ← render (prop user "tenant_id")
    let filename := tenantText ++ "/" ++ toString env.now ++ ".jpg"
    Run.emit (.storageUpload filename buffer mimeType)
    if truthy (env.upload filename buffer mimeType) then
      Run.throw
    else
      let publicUrl := env.publicUrl filename
      Run.emit (.aiCall buffer mimeType)
      let raw ← Run.ofFetched (env.generate buffer mimeType)
      let text := cleanup raw
      let extractedData := (env.jsonParse text).getD sentinel
      let totalAmount ← member extractedData "total_amount"
      let merchantName ← member extractedData "merchant_name"
      let category ← member extractedData "category"
      Run.emit (.recordInsert
        (transactionRecord user extractedData publicUrl totalAmount merchantName category))
      let merchantText ← render (orElse merchantName (.str "Unknown"))
      let amountText ← render (orElse totalAmount (.num .zero))
      sendWhatsAppMessage senderPhone (confirmation merchantText amountText)
  else
    Run.throw

/-- The media branch for an image (lines 117-219): read the media reference,
acknowledge, then run the pipeline inside `try`/`catch`. -/
def handleImage (env : Env) (user message senderPhone : JSVal) : Run Response := do
  let image := prop message "image"
  let mediaId ← member image "id"
  let mimeType := orElse (prop image "mime_type") (.str "image/jpeg")
  let _ ← render mediaId
  let _ ← render mimeType
  sendWhatsAppMessage senderPhone processingNotice
  Run.tryCatch (processImage env user senderPhone mediaId mimeType)
    (sendWhatsAppMessage senderPhone failureNotice)
  pure eventReceived

/-- The branch taken once the user is found (lines 93-221). -/
def handleUser (env : Env) (user message senderPhone messageType : JSVal) : Run Response := do
  let _ ← render (prop user "name")
  let _ ← render (prop user "id")
  let status := prop (prop user "tenants") "subscription_status"
  let userName := orElse (prop user "name") (.str "Staff")
  if !isStr status "active" then
    let nameText ← render userName
    sendWhatsAppMessage senderPhone (inactiveNotice nameText)
    pure eventReceived
  else if isStr messageType "text" then
    let nameText ← render userName
    sendWhatsAppMessage senderPhone (greeting nameText)
    pure eventReceived
  else if isStr messageType "image" || isStr messageType "document" then
    if isStr messageType "document" then
      sendWhatsAppMessage senderPhone pdfNotice
      pure ⟨200, .str "PDF Skipped"⟩
    else
      handleImage env user message senderPhone
  else
    pure eventReceived

/-- The first message of the envelope:
`body.entry?.[0]?.changes?.[0]?.value?.messages?.[0]` (lines 69-70). -/
def firstMessage (body : JSVal) : JSVal :=
  let changes := prop (index0 (prop (index0 (prop body "entry")) "changes")) "value"
  index0 (prop changes "messages")

/-- The `POST` branch (lines 62-225). -/
def handlePost (env : Env) (body : JSVal) : Run Response := do
  let object ← member body "object"
  if isStr object "whatsapp_business_account" then
    let message := firstMessage body
    if !truthy message then
      pure ⟨200, .str "No message"⟩
    else
      let senderPhone := prop message "from"
      let messageType := prop message "type"
      let _ ← render senderPhone
      let _ ← render messageType
      Run.emit (.userLookup senderPhone)
      let found := env.lookupUser senderPhone
      if truthy found.error || !truthy found.data then
        let _ ← render senderPhone
        pure eventReceived
      else
        handleUser env found.data message senderPhone messageType
  else
    pure eventReceived

/-- The `GET` branch: the subscription handshake (lines 51-59). -/
def handleGet (env : Env) (query : List (String × JSVal)) : Response :=
  if isStr ((lookupKey query "hub.mode").getD .undefined) "subscribe" &&
      eqEnv ((lookupKey query "hub.verify_token").getD .undefined) env.verifyToken then
    ⟨200, (lookupKey query "hub.challenge").getD .undefined⟩
  else
    ⟨403, .obj [("error", .str "Verification failed")]⟩

/-- The body of the outer `try` block (lines 48-226). -/
def dispatch (env : Env) (req : Request) : Run Response :=
  if req.method == "GET" then
    Run.ret (handleGet env req.query)
  else if req.method == "POST" then
    handlePost env req.body
  else
    Run.ret ⟨405, .str "Method Not Allowed"⟩

/-- The exported function `handler(req, res)`: the response sent and the
external calls made.  An exception escaping the body is answered with status
500 (lines 228-231). -/
def handler (env : Env) (req : Request) : Response × List Effect :=
  let run := dispatch env req
  match run.result with
  | some res => (res, run.trace)
  | none => (⟨500, .str "Internal Server Error"⟩, run.trace)

/-! ## Vocabulary of the statements -/

/-- The JavaScript value of an environment variable. -/
def envValue : Option String → JSVal
  | some s => .str s
  | none => .undefined

/-- The request body is a business-account envelope whose first message is
`message`, sent from the phone number `phone` with message type `kind`. -/
structure MessageEvent (body message : JSVal) (phone kind : String) : Prop where
  marker : prop body "object" = .str "whatsapp_business_account"
  first : firstMessage body = message
  present : truthy message = true
  sender : prop message "from" = .str phone
  kind : prop message "type" = .str kind

/-- The lookup of `phone` answers the row `user` and no error; the two columns
written to the log on line 93 (`name` and `id`) convert to text. -/
structure ResolvedUser (env : Env) (phone : String) (user : JSVal) : Prop where
  found : (env.lookupUser (.str phone)).data = user
  noError : truthy (env.lookupUser (.str phone)).error = false
  row : truthy user = true
  name : (toStr (prop user "name")).isSome = true
  id : (toStr (prop user "id")).isSome = true

/-- The subscription status read on line 95: `user.tenants?.subscription_status`. -/
def subscriptionStatus (user : JSVal) : JSVal :=
  prop (prop user "tenants") "subscription_status"

/-- The image message carries a media reference whose identifier and MIME
type convert to text, the media address `url` is resolved and the binary
`buffer` is downloaded from it; `filename` is the storage path built on line
148 from the tenant identifier and the clock. -/
structure MediaFetched (env : Env) (message user : JSVal) (mediaId : String)
    (mimeType url : JSVal) (buffer : Bytes) (filename : String) : Prop where
  image : nullish (prop message "image") = false
  id : toStr (prop (prop message "image") "id") = some mediaId
  mime : orElse (prop (prop message "image") "mime_type") (.str "image/jpeg") = mimeType
  mimeText : (toStr mimeType).isSome = true
  resolved : ∃ mediaData, env.mediaInfo mediaId = .ok mediaData ∧ prop mediaData "url" = url
  address : truthy url = true
  downloaded : env.download url = .ok buffer
  path : ∃ tenantText, toStr (prop user "tenant_id") = some tenantText ∧
    filename = tenantText ++ "/" ++ toString env.now ++ ".jpg"

/-- A text occurs inside another. -/
def Contains (text part : String) : Prop :=
  ∃ before after : String, text = before ++ part ++ after

/-- Whether the text holds three consecutive backticks somewhere. -/
def hasFence : List Char → Bool
  | [] => false
  | c :: rest => startsWith fence (c :: rest) || hasFence rest

/-- Whether an effect is neither a storage upload nor a record insert. -/
def quiet : Effect → Bool
  | .storageUpload _ _ _ => false
  | .recordInsert _ => false
  | _ => true

/-- Scans a trace and checks that every record insert comes after a storage
upload whose answer carried no error; `seen` tells whether such an upload has
already been met. -/
def guardedFrom (env : Env) : Bool → List Effect → Bool
  | _, [] => true
  | seen, .storageUpload f b m :: rest =>
    guardedFrom env (seen || !truthy (env.upload f b m)) rest
  | seen, .recordInsert _ :: rest => seen && guardedFrom env seen rest
  | seen, .userLookup _ :: rest => guardedFrom env seen rest
  | seen, .sendMessage _ _ :: rest => guardedFrom env seen rest
  | seen, .mediaInfo _ :: rest => guardedFrom env seen rest
  | seen, .download _ :: rest => guardedFrom env seen rest
  | seen, .aiCall _ _ :: rest => guardedFrom env seen rest

/-- Every effect of the run is quiet. -/
def Quiet {α : Type} (r : Run α) : Prop := ∀ e ∈ r.trace, quiet e = true

/-! ## Sample data for the concrete instances -/

/-- A webhook envelope of the business-account kind holding one message. -/
def envelope (message : JSVal) : JSVal :=
  .obj [("object", .str "whatsapp_business_account"),
        ("entry", .arr [.obj [("changes", .arr [.obj [("value",
          .obj [("messages", .arr [message])])]])]])]

/-- A message of the given type from a sample phone number, with a media
reference. -/
def sampleMessage (kind : String) : JSVal :=
  .obj [("from", .str "15550001111"), ("type", .str kind),
        ("image", .obj [("id", .str "media1"), ("mime_type", .str "image/png")])]

/-- A user row joined with its tenant, the tenant having the given status. -/
def sampleUser (status : String) : JSVal :=
  .obj [("id", .str "u1"), ("name", .str "Asha"), ("tenant_id", .str "t1"),
        ("tenants", .obj [("subscription_status", .str status)])]

/-- An outside world in which the lookup answers `user` and `lookupError`, the
media is resolved and downloaded, the upload answers `uploadError`, the model
answers the text `raw`, and `JSON.parse` of the cleaned text gives `parsed`. -/
def sampleEnv (user lookupError uploadError : JSVal) (raw : String)
    (parsed : Option JSVal) : Env where
  verifyToken := some "secret"
  lookupUser := fun _ => ⟨user, lookupError⟩
  mediaInfo := fun _ => .ok (.obj [("url", .str "https://media.example/1")])
  download := fun _ => .ok [255, 216, 255]
  now := 1700000000000
  upload := fun _ _ _ => uploadError
  publicUrl := fun name => "https://storage.example/receipts/" ++ name
  generate := fun _ _ => .ok raw
  jsonParse := fun text => if text == cleanup raw then parsed else none
  insert := fun _ => .null

/-- The model output of the round-trip example of the specification. -/
def acmeText : String :=
  "\x7b\"merchant_name\":\"Acme\",\"total_amount\":42.5,\"date\":\"2024-01-01\",\"category\":\"Travel\",\"doc_type\":\"Receipt\"\x7d"

/-- The value of `JSON.parse(acmeText)`. -/
def acmeFields : List (String × JSVal) :=
  [("merchant_name", .str "Acme"), ("total_amount", .num (.dec false 425 (-1) (by decide))),
   ("date", .str "2024-01-01"), ("category", .str "Travel"), ("doc_type", .str "Receipt")]

/-- A model output whose merchant name is an object with an own `toString`
property. -/
def oddText : String := "\x7b\"merchant_name\":\x7b\"toString\":0\x7d\x7d"

/-- The value of `JSON.parse(oddText)`. -/
def oddFields : List (String × JSVal) :=
  [("merchant_name", .obj [("toString", .num .zero)])]

/-- A model output whose merchant name is the empty string. -/
def blankText : String :=
  "\x7b\"merchant_name\":\"\",\"total_amount\":5,\"category\":\"Travel\"\x7d"

/-- The value of `JSON.parse(blankText)`. -/
def blankFields : List (String × JSVal) :=
  [("merchant_name", .str ""), ("total_amount", .num (.dec false 5 0 (by decide))),
   ("category", .str "Travel")]

/-- A JSON text holding a fence inside a string. -/
def innerFenceText : String := "\x7b\"merchant_name\":\"a```b\"\x7d"

/-! ## Basic facts -/

@[simp] theorem Run.bind_def {α β : Type} (m : Run α) (f : α → Run β) :
    m >>= f = Run.andThen m f := rfl

@[simp] theorem Run.pure_def {α : Type} (a : α) : (pure a : Run α) = Run.ret a := rfl

theorem isStr_iff (v : JSVal) (lit : String) : isStr v lit = true ↔ v = .str lit := by
  cases v <;> simp [isStr]

theorem eqEnv_iff (v : JSVal) (e : Option String) : eqEnv v e = true ↔ v = envValue e := by
  cases v <;> cases e <;> simp [eqEnv, envValue]

theorem prop_nullish (v : JSVal) (k : String) (h : nullish v = true) : prop v k = .undefined := by
  cases v <;> simp_all [nullish, prop]

theorem nullish_of_prop (v : JSVal) (k : String) (w : JSVal) (h : prop v k = w)
    (hw : w ≠ .undefined) : nullish v = false := by
  cases v <;> simp_all [nullish, prop]

theorem toStr_orElse_isSome (a b : JSVal) (ha : (toStr a).isSome = true)
    (hb : (toStr b).isSome = true) : (toStr (orElse a b)).isSome = true := by
  unfold orElse; split <;> assumption

theorem handlePost_message (env : Env) (body message : JSVal) (phone kind : String)
    (hm : MessageEvent body message phone kind) :
    handlePost env body =
      Run.andThen (Run.emit (.userLookup (.str phone))) (fun _ =>
        if truthy (env.lookupUser (.str phone)).error || !truthy (env.lookupUser (.str phone)).data
        then Run.ret eventReceived
        else handleUser env (env.lookupUser (.str phone)).data message (.str phone) (.str kind)) := by
  have hb : nullish body = false := nullish_of_prop body "object" _ hm.marker (by simp)
  simp [handlePost, member, hb, hm.marker, hm.first, hm.present, hm.sender, hm.kind, isStr,
    render, toStr, Run.ofOption, Run.andThen, Run.ret, Run.emit]

theorem handlePost_user (env : Env) (body message user : JSVal) (phone kind : String)
    (hm : MessageEvent body message phone kind) (hu : ResolvedUser env phone user) :
    handlePost env body =
      Run.andThen (Run.emit (.userLookup (.str phone))) (fun _ =>
        handleUser env user message (.str phone) (.str kind)) := by
  rw [handlePost_message env body message phone kind hm]
  simp [hu.found, hu.noError, hu.row]

theorem truthy_ne_undefined (v : JSVal) (h : truthy v = true) : v ≠ .undefined := by
  intro hv; simp [hv, truthy] at h

theorem tryCatch_send_result (r : Run Unit) (phone text : String) :
    (Run.tryCatch r (sendWhatsAppMessage (.str phone) text)).result = some () := by
  unfold Run.tryCatch
  cases h : r.result <;>
    simp [sendWhatsAppMessage, render, toStr, Run.ofOption, Run.andThen, Run.ret, Run.emit, h]

/-- The run of the handler on an image message of an active user, in terms of
the run of the pipeline. -/
theorem handler_image (env : Env) (query : List (String × JSVal)) (body message user : JSVal)
    (phone mediaId : String) (mimeType url : JSVal) (buffer : Bytes) (filename : String)
    (hm : MessageEvent body message phone "image")
    (hu : ResolvedUser env phone user)
    (hs : subscriptionStatus user = .str "active")
    (hf : MediaFetched env message user mediaId mimeType url buffer filename) :
    handler env ⟨"POST", query, body⟩ =
      (eventReceived,
       .userLookup (.str phone) :: .sendMessage (.str phone) processingNotice ::
        (Run.tryCatch
          (processImage env user (.str phone) (prop (prop message "image") "id") mimeType)
          (sendWhatsAppMessage (.str phone) failureNotice)).trace) := by
  obtain ⟨nm, hnm⟩ := Option.isSome_iff_exists.1 hu.name
  obtain ⟨idt, hid⟩ := Option.isSome_iff_exists.1 hu.id
  obtain ⟨un, hun⟩ := Option.isSome_iff_exists.1
    (toStr_orElse_isSome (prop user "name") (.str "Staff") hu.name rfl)
  obtain ⟨mt, hmt⟩ := Option.isSome_iff_exists.1 hf.mimeText
  unfold subscriptionStatus at hs
  have hmime := hf.mime
  simp [handler, dispatch, handlePost_user env body message user phone "image" hm hu,
    handleUser, handleImage, hnm, hid, hun, hs, isStr, render, toStr, Run.ofOption, Run.andThen,
    Run.ret, Run.emit, sendWhatsAppMessage, member, hf.image, hf.id, hmime, hmt]
  have := tryCatch_send_result
    (processImage env user (.str phone) (prop (prop message "image") "id") mimeType) phone failureNotice
  simp [sendWhatsAppMessage, render, toStr, Run.ofOption, Run.andThen, Run.ret, Run.emit] at this
  simp [this]

/-- The pipeline up to the upload. -/
theorem processImage_upload (env : Env) (message user sender : JSVal)
    (mediaId : String) (mimeType url : JSVal) (buffer : Bytes) (filename : String)
    (hf : MediaFetched env message user mediaId mimeType url buffer filename)
    (hup : truthy (env.upload filename buffer mimeType) = true) :
    processImage env user sender (prop (prop message "image") "id") mimeType =
      ⟨[.mediaInfo mediaId, .download url, .storageUpload filename buffer mimeType], none⟩ := by
  obtain ⟨mediaData, hinfo, hurl⟩ := hf.resolved
  obtain ⟨tenantText, htt, hfn⟩ := hf.path
  have hnn : nullish mediaData = false :=
    nullish_of_prop mediaData "url" url hurl (truthy_ne_undefined url hf.address)
  subst hfn
  simp [processImage, render, hf.id, Run.ofOption, Run.andThen, Run.ret, Run.emit, Run.throw,
    Run.ofFetched, hinfo, member, hnn, hurl, hf.address, hf.downloaded, htt, hup]

/-- The pipeline when every step succeeds. -/
theorem processImage_done (env : Env) (message user : JSVal) (phone mediaId : String)
    (mimeType url : JSVal) (buffer : Bytes) (filename raw : String) (extracted : JSVal)
    (merchantText amountText : String)
    (hf : MediaFetched env message user mediaId mimeType url buffer filename)
    (hup : truthy (env.upload filename buffer mimeType) = false)
    (hgen : env.generate buffer mimeType = .ok raw)
    (hex : (env.jsonParse (cleanup raw)).getD sentinel = extracted)
    (hnn : nullish extracted = false)
    (hmt : toStr (orElse (prop extracted "merchant_name") (.str "Unknown")) = some merchantText)
    (hat : toStr (orElse (prop extracted "total_amount") (.num .zero)) = some amountText) :
    processImage env user (.str phone) (prop (prop message "image") "id") mimeType =
      ⟨[.mediaInfo mediaId, .download url, .storageUpload filename buffer mimeType,
        .aiCall buffer mimeType,
        .recordInsert (transactionRecord user extracted (env.publicUrl filename)
          (prop extracted "total_amount") (prop extracted "merchant_name")
          (prop extracted "category")),
        .sendMessage (.str phone) (confirmation merchantText amountText)], some ()⟩ := by
  obtain ⟨mediaData, hinfo, hurl⟩ := hf.resolved
  obtain ⟨tenantText, htt, hfn⟩ := hf.path
  have hnm : nullish mediaData = false :=
    nullish_of_prop mediaData "url" url hurl (truthy_ne_undefined url hf.address)
  subst hfn
  simp [processImage, render, hf.id, Run.ofOption, Run.andThen, Run.ret, Run.emit, Run.throw,
    Run.ofFetched, hinfo, member, hnm, hurl, hf.address, hf.downloaded, htt, hup, hgen, hex,
    hnn, hmt, hat, sendWhatsAppMessage, toStr]

/-- The run of the handler on an image message when every step succeeds. -/
theorem handler_image_done (env : Env) (query : List (String × JSVal))
    (body message user : JSVal) (phone mediaId : String)
    (mimeType url : JSVal) (buffer : Bytes) (filename raw : String) (extracted : JSVal)
    (merchantText amountText : String)
    (hm : MessageEvent body message phone "image")
    (hu : ResolvedUser env phone user)
    (hs : subscriptionStatus user = .str "active")
    (hf : MediaFetched env message user mediaId mimeType url buffer filename)
    (hup : truthy (env.upload filename buffer mimeType) = false)
    (hgen : env.generate buffer mimeType = .ok raw)
    (hex : (env.jsonParse (cleanup raw)).getD sentinel = extracted)
    (hnn : nullish extracted = false)
    (hmt : toStr (orElse (prop extracted "merchant_name") (.str "Unknown")) = some merchantText)
    (hat : toStr (orElse (prop extracted "total_amount") (.num .zero)) = some amountText) :
    handler env ⟨"POST", query, body⟩ =
      (eventReceived,
       [.userLookup (.str phone),
        .sendMessage (.str phone) processingNotice,
        .mediaInfo mediaId, .download url, .storageUpload filename buffer mimeType,
        .aiCall buffer mimeType,
        .recordInsert (transactionRecord user extracted (env.publicUrl filename)
          (prop extracted "total_amount") (prop extracted "merchant_name")
          (prop extracted "category")),
        .sendMessage (.str phone) (confirmation merchantText amountText)]) := by
  rw [handler_image env query body message user phone mediaId mimeType url buffer filename
    hm hu hs hf]
  rw [processImage_done env message user phone mediaId mimeType url buffer filename raw
    extracted merchantText amountText hf hup hgen hex hnn hmt hat]
  simp [Run.tryCatch]

theorem confirmation_contains (merchant amount : String) :
    Contains (confirmation merchant amount) merchant ∧
    Contains (confirmation merchant amount) amount := by
  refine ⟨⟨"✅ Saved!\n\n🏪 ", "\n💰 ₹" ++ amount, ?_⟩, ⟨"✅ Saved!\n\n🏪 " ++ merchant ++ "\n💰 ₹", "", ?_⟩⟩
  · simp [confirmation, String.append_assoc]
  · simp [confirmation]

theorem orElse_num (a : JSNum) : orElse (.num a) (.num .zero) = .num a := by
  cases a <;> simp [orElse, truthy]

theorem orElse_str (m : String) (other : JSVal) (h : m ≠ "") : orElse (.str m) other = .str m := by
  have : truthy (.str m) = true := by
    cases m with
    | mk d => cases d <;> simp_all [truthy]
  simp [orElse, this]

/-! ## Every insert follows a successful upload -/

theorem guardedFrom_true (env : Env) (t : List Effect) : guardedFrom env true t = true := by
  induction t with
  | nil => rfl
  | cons e t ih => cases e <;> simp [guardedFrom, ih]

theorem guardedFrom_quiet_append (env : Env) (q t : List Effect) (s : Bool)
    (hq : ∀ e ∈ q, quiet e = true) : guardedFrom env s (q ++ t) = guardedFrom env s t := by
  induction q with
  | nil => rfl
  | cons e q ih =>
    have he : quiet e = true := hq e (List.mem_cons_self _ _)
    have ih2 := ih (fun x hx => hq x (List.mem_cons_of_mem _ hx))
    cases e <;> simp_all [guardedFrom, quiet]

theorem guardedFrom_append_quiet (env : Env) (t q : List Effect) (s : Bool)
    (hq : ∀ e ∈ q, quiet e = true) : guardedFrom env s (t ++ q) = guardedFrom env s t := by
  induction t generalizing s with
  | nil =>
    have := guardedFrom_quiet_append env q [] s hq
    simpa [guardedFrom] using this
  | cons e t ih => cases e <;> simp [guardedFrom, ih]

theorem guarded_andThen (env : Env) {α β : Type} (m : Run α) (f : α → Run β)
    (hq : Quiet m) (hf : ∀ a, guardedFrom env false (f a).trace = true) :
    guardedFrom env false (Run.andThen m f).trace = true := by
  unfold Run.andThen
  cases h : m.result with
  | none =>
    have := guardedFrom_quiet_append env m.trace [] false hq
    simpa [guardedFrom] using this
  | some a =>
    simp only []
    rw [guardedFrom_quiet_append env m.trace _ false hq]
    exact hf a

theorem quiet_render (v : JSVal) : Quiet (render v) := by
  intro e he
  unfold render Run.ofOption at he
  cases h : toStr v <;> simp [h, Run.ret, Run.throw] at he

theorem quiet_member (v : JSVal) (k : String) : Quiet (member v k) := by
  intro e he
  unfold member at he
  cases h : nullish v <;> simp [h, Run.ret, Run.throw] at he

theorem quiet_ofFetched {α : Type} (x : Fetched α) : Quiet (Run.ofFetched x) := by
  intro e he
  cases x <;> simp [Run.ofFetched, Run.ret, Run.throw] at he

theorem quiet_emit (e : Effect) (h : quiet e = true) : Quiet (Run.emit e) := by
  intro x hx
  simp [Run.emit] at hx
  simpa [hx] using h

theorem quiet_send (recipient : JSVal) (text : String) :
    Quiet (sendWhatsAppMessage recipient text) := by
  intro e he
  unfold sendWhatsAppMessage render Run.ofOption at he
  cases h : toStr recipient <;>
    simp [h, Run.ret, Run.throw, Run.andThen, Run.emit] at he
  simp [he, quiet]

theorem guarded_of_quiet (env : Env) {α : Type} (r : Run α) (h : Quiet r) :
    guardedFrom env false r.trace = true := by
  have := guardedFrom_quiet_append env r.trace [] false h
  simpa [guardedFrom] using this

theorem guarded_processImage (env : Env) (user sender mediaId mimeType : JSVal) :
    guardedFrom env false (processImage env user sender mediaId mimeType).trace = true := by
  unfold processImage
  simp only [Run.bind_def]
  refine guarded_andThen env _ _ (quiet_render _) (fun idText => ?_)
  refine guarded_andThen env _ _ (quiet_emit _ rfl) (fun _ => ?_)
  refine guarded_andThen env _ _ (quiet_ofFetched _) (fun mediaData => ?_)
  refine guarded_andThen env _ _ (quiet_member _ _) (fun mediaUrl => ?_)
  split
  · refine guarded_andThen env _ _ (quiet_emit _ rfl) (fun _ => ?_)
    refine guarded_andThen env _ _ (quiet_ofFetched _) (fun buffer => ?_)
    refine guarded_andThen env _ _ (quiet_render _) (fun tenantText => ?_)
    cases hup : truthy (env.upload (tenantText ++ "/" ++ toString env.now ++ ".jpg") buffer mimeType)
    · simp [Run.andThen, Run.emit, guardedFrom, hup, guardedFrom_true]
    · simp [Run.andThen, Run.emit, guardedFrom, hup, Run.throw]
  · simp [Run.throw, guardedFrom]

theorem guarded_tryCatch (env : Env) {α : Type} (r h : Run α)
    (hr : guardedFrom env false r.trace = true) (hh : Quiet h) :
    guardedFrom env false (Run.tryCatch r h).trace = true := by
  unfold Run.tryCatch
  cases hres : r.result with
  | some a => simpa using hr
  | none =>
    simp only []
    rw [guardedFrom_append_quiet env r.trace h.trace false hh]
    exact hr

theorem guarded_handleImage (env : Env) (user message sender : JSVal) :
    guardedFrom env false (handleImage env user message sender).trace = true := by
  unfold handleImage
  simp only [Run.bind_def, Run.pure_def]
  refine guarded_andThen env _ _ (quiet_member _ _) (fun mediaId => ?_)
  refine guarded_andThen env _ _ (quiet_render _) (fun _ => ?_)
  refine guarded_andThen env _ _ (quiet_render _) (fun _ => ?_)
  refine guarded_andThen env _ _ (quiet_send _ _) (fun _ => ?_)
  unfold Run.andThen
  have key := guarded_tryCatch env
    (processImage env user sender mediaId
      (orElse (prop (prop message "image") "mime_type") (.str "image/jpeg")))
    (sendWhatsAppMessage sender failureNotice)
    (guarded_processImage env _ _ _ _) (quiet_send _ _)
  split
  · exact key
  · simpa [Run.ret] using key

theorem guarded_handleUser (env : Env) (user message sender messageType : JSVal) :
    guardedFrom env false (handleUser env user message sender messageType).trace = true := by
  unfold handleUser
  simp only [Run.bind_def, Run.pure_def]
  refine guarded_andThen env _ _ (quiet_render _) (fun _ => ?_)
  refine guarded_andThen env _ _ (quiet_render _) (fun _ => ?_)
  split
  · refine guarded_andThen env _ _ (quiet_render _) (fun nameText => ?_)
    refine guarded_andThen env _ _ (quiet_send _ _) (fun _ => ?_)
    rfl
  · split
    · refine guarded_andThen env _ _ (quiet_render _) (fun nameText => ?_)
      refine guarded_andThen env _ _ (quiet_send _ _) (fun _ => ?_)
      rfl
    · split
      · split
        · refine guarded_andThen env _ _ (quiet_send _ _) (fun _ => ?_)
          rfl
        · exact guarded_handleImage env _ _ _
      · rfl

theorem guarded_handlePost (env : Env) (body : JSVal) :
    guardedFrom env false (handlePost env body).trace = true := by
  unfold handlePost
  simp only [Run.bind_def, Run.pure_def]
  refine guarded_andThen env _ _ (quiet_member _ _) (fun object => ?_)
  split
  · split
    · rfl
    · refine guarded_andThen env _ _ (quiet_render _) (fun _ => ?_)
      refine guarded_andThen env _ _ (quiet_render _) (fun _ => ?_)
      refine guarded_andThen env _ _ (quiet_emit _ rfl) (fun _ => ?_)
      split
      · refine guarded_andThen env _ _ (quiet_render _) (fun _ => ?_)
        rfl
      · exact guarded_handleUser env _ _ _ _
  · rfl

theorem handler_trace (env : Env) (req : Request) :
    (handler env req).2 = (dispatch env req).trace := by
  unfold handler
  simp only []
  split <;> rfl

theorem guarded_handler (env : Env) (req : Request) :
    guardedFrom env false (handler env req).2 = true := by
  rw [handler_trace]
  unfold dispatch
  split
  · rfl
  · split
    · exact guarded_handlePost env _
    · rfl

theorem guardedFrom_insert (env : Env) (pre post : List Effect) (record : JSVal) (s : Bool)
    (h : guardedFrom env s (pre ++ .recordInsert record :: post) = true) :
    s = true ∨ ∃ filename buffer contentType,
      Effect.storageUpload filename buffer contentType ∈ pre ∧
      truthy (env.upload filename buffer contentType) = false := by
  induction pre generalizing s with
  | nil =>
    simp [guardedFrom] at h
    exact Or.inl h.1
  | cons e pre ih =>
    cases e with
    | storageUpload f b m =>
      simp only [List.cons_append, guardedFrom] at h
      rcases ih _ h with h1 | ⟨f2, b2, m2, hmem, hok⟩
      · cases s
        · right
          refine ⟨f, b, m, List.mem_cons_self _ _, ?_⟩
          simpa using h1
        · exact Or.inl rfl
      · exact Or.inr ⟨f2, b2, m2, List.mem_cons_of_mem _ hmem, hok⟩
    | recordInsert r =>
      simp only [List.cons_append, guardedFrom, Bool.and_eq_true] at h
      exact Or.inl h.1
    | userLookup _ =>
      simp only [List.cons_append, guardedFrom] at h
      rcases ih _ h with h1 | ⟨f2, b2, m2, hmem, hok⟩
      · exact Or.inl h1
      · exact Or.inr ⟨f2, b2, m2, List.mem_cons_of_mem _ hmem, hok⟩
    | sendMessage _ _ =>
      simp only [List.cons_append, guardedFrom] at h
      rcases ih _ h with h1 | ⟨f2, b2, m2, hmem, hok⟩
      · exact Or.inl h1
      · exact Or.inr ⟨f2, b2, m2, List.mem_cons_of_mem _ hmem, hok⟩
    | mediaInfo _ =>
      simp only [List.cons_append, guardedFrom] at h
      rcases ih _ h with h1 | ⟨f2, b2, m2, hmem, hok⟩
      · exact Or.inl h1
      · exact Or.inr ⟨f2, b2, m2, List.mem_cons_of_mem _ hmem, hok⟩
    | download _ =>
      simp only [List.cons_append, guardedFrom] at h
      rcases ih _ h with h1 | ⟨f2, b2, m2, hmem, hok⟩
      · exact Or.inl h1
      · exact Or.inr ⟨f2, b2, m2, List.mem_cons_of_mem _ hmem, hok⟩
    | aiCall _ _ =>
      simp only [List.cons_append, guardedFrom] at h
      rcases ih _ h with h1 | ⟨f2, b2, m2, hmem, hok⟩
      · exact Or.inl h1
      · exact Or.inr ⟨f2, b2, m2, List.mem_cons_of_mem _ hmem, hok⟩

/-- In every run, a record insert comes after an upload that answered no error. -/
theorem insert_after_upload (env : Env) (req : Request) (pre post : List Effect)
    (record : JSVal) (h : (handler env req).2 = pre ++ .recordInsert record :: post) :
    ∃ filename buffer contentType,
      Effect.storageUpload filename buffer contentType ∈ pre ∧
      truthy (env.upload filename buffer contentType) = false := by
  have hg := guarded_handler env req
  rw [h] at hg
  rcases guardedFrom_insert env pre post record false hg with h1 | h2
  · exact absurd h1 (by simp)
  · exact h2

/-! ## The clean-up of the model output -/

theorem startsWith_length (p s : List Char) (h : startsWith p s = true) :
    p.length ≤ s.length := by
  induction p generalizing s with
  | nil => simp
  | cons a p ih =>
    cases s with
    | nil => simp [startsWith] at h
    | cons b s =>
      simp only [startsWith, Bool.and_eq_true] at h
      have := ih s h.2
      simp only [List.length_cons]
      omega

theorem startsWith_append_sep (p t u : List Char) (x : Char) (hx : ∀ a ∈ p, (a == x) = false) :
    startsWith p (t ++ x :: u) = startsWith p t := by
  induction p generalizing t with
  | nil => cases t <;> rfl
  | cons a p ih =>
    cases t with
    | nil =>
      have := hx a (List.mem_cons_self _ _)
      simp [startsWith, this]
    | cons b t =>
      show (a == b && startsWith p (t ++ x :: u)) = (a == b && startsWith p t)
      rw [ih t (fun c hc => hx c (List.mem_cons_of_mem _ hc))]

theorem fenceJson_sep : ∀ a ∈ fenceJson, (a == '\n') = false := by decide

theorem fence_sep : ∀ a ∈ fence, (a == '\n') = false := by decide

theorem stripFencesAux_append (u : List Char) (t : List Char) (k : Nat) (hk : k ≤ t.length) :
    stripFencesAux k (t ++ '\n' :: u) = stripFencesAux k t ++ '\n' :: stripFencesAux 0 u := by
  induction t generalizing k with
  | nil =>
    have hk0 : k = 0 := by simpa using hk
    subst hk0
    simp [stripFencesAux, startsWith, fenceJson, fence]
  | cons c t ih =>
    cases k with
    | succ k =>
      show stripFencesAux k (t ++ '\n' :: u) = stripFencesAux k t ++ '\n' :: stripFencesAux 0 u
      exact ih k (by simpa using hk)
    | zero =>
      have e1 := startsWith_append_sep fenceJson (c :: t) u '\n' fenceJson_sep
      have e2 := startsWith_append_sep fence (c :: t) u '\n' fence_sep
      rw [List.cons_append] at e1 e2
      show (if startsWith fenceJson (c :: (t ++ '\n' :: u)) then stripFencesAux 6 (t ++ '\n' :: u)
            else if startsWith fence (c :: (t ++ '\n' :: u)) then stripFencesAux 2 (t ++ '\n' :: u)
            else c :: stripFencesAux 0 (t ++ '\n' :: u)) =
           (if startsWith fenceJson (c :: t) then stripFencesAux 6 t
            else if startsWith fence (c :: t) then stripFencesAux 2 t
            else c :: stripFencesAux 0 t) ++ '\n' :: stripFencesAux 0 u
      rw [e1, e2]
      by_cases h1 : startsWith fenceJson (c :: t) = true
      · have hl := startsWith_length _ _ h1
        rw [if_pos h1, if_pos h1]
        exact ih 6 (by simp [fenceJson] at hl; omega)
      · by_cases h2 : startsWith fence (c :: t) = true
        · have hl := startsWith_length _ _ h2
          rw [if_neg h1, if_pos h2, if_neg h1, if_pos h2]
          exact ih 2 (by simp [fence] at hl; omega)
        · rw [if_neg h1, if_neg h2, if_neg h1, if_neg h2, ih 0 (Nat.zero_le _)]
          rfl

theorem stripFences_fenced_json (t : List Char) :
    stripFences ("```json\n".data ++ t ++ "\n```".data) = '\n' :: stripFences t ++ ['\n'] := by
  have h := stripFencesAux_append fence t 0 (Nat.zero_le _)
  have h3 : stripFencesAux 0 fence = [] := by decide
  rw [h3] at h
  have e : "\n```".data = '\n' :: fence := by decide
  have e0 : "```json\n".data = fenceJson ++ ['\n'] := by decide
  unfold stripFences
  rw [e, e0]
  show '\n' :: stripFencesAux 0 (t ++ '\n' :: fence) = '\n' :: stripFencesAux 0 t ++ ['\n']
  rw [h]
  rfl

theorem stripFences_fenced_bare (t : List Char) :
    stripFences ("```\n".data ++ t ++ "\n```".data) = '\n' :: stripFences t ++ ['\n'] := by
  have h := stripFencesAux_append fence t 0 (Nat.zero_le _)
  have h3 : stripFencesAux 0 fence = [] := by decide
  rw [h3] at h
  have e : "\n```".data = '\n' :: fence := by decide
  have e0 : "```\n".data = fence ++ ['\n'] := by decide
  unfold stripFences
  rw [e, e0]
  show '\n' :: stripFencesAux 0 (t ++ '\n' :: fence) = '\n' :: stripFencesAux 0 t ++ ['\n']
  rw [h]
  rfl

theorem trimChars_wrapped (s : List Char) : trimChars ('\n' :: s ++ ['\n']) = trimChars s := by
  have hnl : isJSSpace '\n' = true := by decide
  unfold trimChars
  rw [List.cons_append, List.dropWhile_cons_of_pos hnl, List.dropWhile_append]
  by_cases hd : (List.dropWhile isJSSpace s).isEmpty = true
  · rw [if_pos hd]
    have : List.dropWhile isJSSpace s = [] := by simpa using hd
    rw [this]
    simp [hnl]
  · rw [if_neg hd]
    simp [hnl]

theorem startsWith_fence_of_json (s : List Char) (h : startsWith fenceJson s = true) :
    startsWith fence s = true := by
  match s with
  | [] => simp [fenceJson, startsWith] at h
  | [_] => simp [fenceJson, startsWith] at h
  | [_, _] => simp [fenceJson, startsWith] at h
  | a :: b :: c :: rest =>
    simp only [fenceJson, fence, startsWith, Bool.and_eq_true] at h ⊢
    simp [h.1, h.2.1, h.2.2.1]

theorem stripFences_of_no_fence (s : List Char) (h : hasFence s = false) :
    stripFences s = s := by
  unfold stripFences
  induction s with
  | nil => rfl
  | cons c s ih =>
    simp only [hasFence, Bool.or_eq_false_iff] at h
    have h2 : ¬ startsWith fence (c :: s) = true := by simp [h.1]
    have h1 : ¬ startsWith fenceJson (c :: s) = true :=
      fun hc => h2 (startsWith_fence_of_json _ hc)
    show (if startsWith fenceJson (c :: s) then stripFencesAux 6 s
          else if startsWith fence (c :: s) then stripFencesAux 2 s
          else c :: stripFencesAux 0 s) = c :: s
    rw [if_neg h1, if_neg h2, ih h.2]

/-! ## The sample data -/

theorem sample_event (kind : String) :
    MessageEvent (envelope (sampleMessage kind)) (sampleMessage kind) "15550001111" kind :=
  ⟨rfl, rfl, rfl, rfl, rfl⟩

theorem sample_user (status : String) (uploadError : JSVal) (raw : String)
    (parsed : Option JSVal) :
    ResolvedUser (sampleEnv (sampleUser status) .null uploadError raw parsed) "15550001111"
      (sampleUser status) :=
  ⟨rfl, rfl, rfl, rfl, rfl⟩

theorem sample_media (kind status : String) (uploadError : JSVal) (raw : String)
    (parsed : Option JSVal) :
    MediaFetched (sampleEnv (sampleUser status) .null uploadError raw parsed)
      (sampleMessage kind) (sampleUser status) "media1" (.str "image/png")
      (.str "https://media.example/1") [255, 216, 255] "t1/1700000000000.jpg" :=
  ⟨rfl, rfl, rfl, rfl, ⟨_, rfl, rfl⟩, rfl, rfl, ⟨"t1", rfl, by
    show "t1/1700000000000.jpg" = "t1" ++ "/" ++ toString (1700000000000 : Nat) ++ ".jpg"
    decide⟩⟩

/-! ## The claims -/

/-- C1: for every GET request, whatever the values of the query parameters
(absent ones included), the handler answers 200 with the value of
`hub.challenge` as body exactly when `hub.mode` is `"subscribe"` and
`hub.verify_token` equals the configured verification secret; in every other
case it answers 403; in both cases no external call is made (the effect trace
is empty). -/
theorem verification_handshake (env : Env) (query : List (String × JSVal)) (body : JSVal) :
    (handler env ⟨"GET", query, body⟩ =
        (⟨200, (lookupKey query "hub.challenge").getD .undefined⟩, [])
      ↔ ((lookupKey query "hub.mode").getD .undefined = .str "subscribe" ∧
         (lookupKey query "hub.verify_token").getD .undefined = envValue env.verifyToken)) ∧
    (¬ ((lookupKey query "hub.mode").getD .undefined = .str "subscribe" ∧
         (lookupKey query "hub.verify_token").getD .undefined = envValue env.verifyToken) →
      handler env ⟨"GET", query, body⟩ =
        (⟨403, .obj [("error", .str "Verification failed")]⟩, [])) := by
  by_cases h : (lookupKey query "hub.mode").getD .undefined = .str "subscribe" ∧
         (lookupKey query "hub.verify_token").getD .undefined = envValue env.verifyToken
  · have h1 := (isStr_iff _ _).2 h.1
    have h2 := (eqEnv_iff _ _).2 h.2
    have e : handler env ⟨"GET", query, body⟩ =
        (⟨200, (lookupKey query "hub.challenge").getD .undefined⟩, []) := by
      simp [handler, dispatch, handleGet, Run.ret, h1, h2]
    exact ⟨⟨fun _ => h, fun _ => e⟩, fun hn => absurd h hn⟩
  · have hb : (isStr ((lookupKey query "hub.mode").getD .undefined) "subscribe" &&
        eqEnv ((lookupKey query "hub.verify_token").getD .undefined) env.verifyToken) = false := by
      cases h1 : isStr ((lookupKey query "hub.mode").getD .undefined) "subscribe"
      · rfl
      · cases h2 : eqEnv ((lookupKey query "hub.verify_token").getD .undefined) env.verifyToken
        · rfl
        · exact absurd ⟨(isStr_iff _ _).1 h1, (eqEnv_iff _ _).1 h2⟩ h
    have e : handler env ⟨"GET", query, body⟩ =
        (⟨403, .obj [("error", .str "Verification failed")]⟩, []) := by
      simp [handler, dispatch, handleGet, Run.ret, hb]
    refine ⟨⟨fun he => ?_, fun hc => absurd hc h⟩, fun _ => e⟩
    rw [e] at he
    simp at he

/-- C1 at a concrete request: with the secret `"secret"` configured, the query
`hub.mode=subscribe`, `hub.verify_token=secret`, `hub.challenge=1158201444` is
answered 200 with the challenge. -/
theorem verification_handshake_witness :
    handler (sampleEnv .null .null .null "" none)
        ⟨"GET", [("hub.mode", .str "subscribe"), ("hub.verify_token", .str "secret"),
                 ("hub.challenge", .str "1158201444")], .undefined⟩ =
      (⟨200, .str "1158201444"⟩, []) :=
  (verification_handshake (sampleEnv .null .null .null "" none)
    [("hub.mode", .str "subscribe"), ("hub.verify_token", .str "secret"),
     ("hub.challenge", .str "1158201444")] .undefined).1.2 ⟨rfl, rfl⟩

/-- C2 as stated fails: the JSON body `null` holds no first message, and the
handler answers it with status 500 (reading `body.object` throws, and the
outer `catch` answers), not 200. -/
theorem null_body_answered_500 :
    truthy (firstMessage .null) = false ∧
    handler (sampleEnv .null .null .null "" none) ⟨"POST", [], .null⟩ =
      (⟨500, .str "Internal Server Error"⟩, []) :=
  ⟨rfl, rfl⟩

/-- C2, amended: for every POST body from which no first message can be
extracted (the business-account marker is missing or different, or the chain
`entry[0].changes[0].value.messages[0]` ends in nothing), the handler makes no
external call at all (so no outbound message is sent), and it answers 200
whenever the body is not `null` or `undefined`. -/
theorem no_message_acknowledged (env : Env) (query : List (String × JSVal)) (body : JSVal)
    (h : prop body "object" ≠ .str "whatsapp_business_account" ∨
         truthy (firstMessage body) = false) :
    (handler env ⟨"POST", query, body⟩).2 = [] ∧
    (nullish body = false → (handler env ⟨"POST", query, body⟩).1.status = 200) := by
  cases hb : nullish body
  · by_cases ho : isStr (prop body "object") "whatsapp_business_account" = true
    · have hmsg : truthy (firstMessage body) = false := by
        rcases h with h | h
        · exact absurd ((isStr_iff _ _).1 ho) h
        · exact h
      simp [handler, dispatch, handlePost, member, hb, ho, hmsg, Run.andThen, Run.ret]
    · simp [handler, dispatch, handlePost, member, hb, ho, Run.andThen, Run.ret, eventReceived]
  · simp [handler, dispatch, handlePost, member, hb, Run.andThen, Run.throw]

/-- C2, amended, at a concrete body: a business-account envelope with an empty
`entry` list is answered 200 without any external call. -/
theorem no_message_acknowledged_witness :
    truthy (firstMessage (.obj [("object", .str "whatsapp_business_account"),
      ("entry", .arr [])])) = false ∧
    (handler (sampleEnv .null .null .null "" none) ⟨"POST", [],
      .obj [("object", .str "whatsapp_business_account"), ("entry", .arr [])]⟩).2 = [] ∧
    (handler (sampleEnv .null .null .null "" none) ⟨"POST", [],
      .obj [("object", .str "whatsapp_business_account"), ("entry", .arr [])]⟩).1.status = 200 :=
  ⟨rfl,
   (no_message_acknowledged (sampleEnv .null .null .null "" none) []
     (.obj [("object", .str "whatsapp_business_account"), ("entry", .arr [])])
     (Or.inr rfl)).1,
   (no_message_acknowledged (sampleEnv .null .null .null "" none) []
     (.obj [("object", .str "whatsapp_business_account"), ("entry", .arr [])])
     (Or.inr rfl)).2 rfl⟩

/-- C3: for every POST event carrying a message, of any message type, whose
sender does not resolve to a user (the lookup answers an error, or no row),
the only external call is the lookup itself: no message is sent, nothing is
downloaded, uploaded, submitted to the model or inserted, and the answer is
200. -/
theorem unknown_sender_silent (env : Env) (query : List (String × JSVal))
    (body message : JSVal) (phone kind : String)
    (hm : MessageEvent body message phone kind)
    (hu : truthy (env.lookupUser (.str phone)).error = true ∨
          truthy (env.lookupUser (.str phone)).data = false) :
    handler env ⟨"POST", query, body⟩ = (⟨200, .str "EVENT_RECEIVED"⟩, [.userLookup (.str phone)]) := by
  have hc : (truthy (env.lookupUser (.str phone)).error ||
      !truthy (env.lookupUser (.str phone)).data) = true := by
    rcases hu with h | h <;> simp [h]
  simp [handler, dispatch, handlePost_message env body message phone kind hm, hc,
    Run.andThen, Run.ret, Run.emit, eventReceived]

/-- C3 at a concrete event: a text message from a number for which the lookup
answers an error and no row. -/
theorem unknown_sender_silent_witness :
    MessageEvent (envelope (sampleMessage "text")) (sampleMessage "text") "15550001111" "text" ∧
    handler (sampleEnv .null (.obj [("code", .str "PGRST116")]) .null "" none)
        ⟨"POST", [], envelope (sampleMessage "text")⟩ =
      (⟨200, .str "EVENT_RECEIVED"⟩, [.userLookup (.str "15550001111")]) :=
  ⟨sample_event "text",
   unknown_sender_silent (sampleEnv .null (.obj [("code", .str "PGRST116")]) .null "" none) []
     (envelope (sampleMessage "text")) (sampleMessage "text") "15550001111" "text"
     (sample_event "text") (Or.inl rfl)⟩

/-- C4: for every POST event carrying a message of any type from a resolved
user whose tenant subscription status is not `"active"` (a missing tenant or
status included), the external calls are the lookup and exactly one outbound
message, the inactive-account notice addressed to the sender; the notice
holds the user's name, or `Staff` when the name is empty or absent; nothing is
downloaded, uploaded, submitted to the model or inserted, and the answer is
200. -/
theorem inactive_tenant_notice (env : Env) (query : List (String × JSVal))
    (body message user : JSVal) (phone kind : String)
    (hm : MessageEvent body message phone kind)
    (hu : ResolvedUser env phone user)
    (hs : subscriptionStatus user ≠ .str "active") :
    ∃ userName : String,
      handler env ⟨"POST", query, body⟩ =
        (⟨200, .str "EVENT_RECEIVED"⟩,
         [.userLookup (.str phone),
          .sendMessage (.str phone) ("Hi " ++ userName ++ ", account Inactive.")]) ∧
      (∀ n : String, prop user "name" = .str n → n ≠ "" → userName = n) ∧
      ((prop user "name" = .str "" ∨ nullish (prop user "name") = true) → userName = "Staff") := by
  obtain ⟨nm, hnm⟩ := Option.isSome_iff_exists.1 hu.name
  obtain ⟨idt, hid⟩ := Option.isSome_iff_exists.1 hu.id
  obtain ⟨un, hun⟩ := Option.isSome_iff_exists.1
    (toStr_orElse_isSome (prop user "name") (.str "Staff") hu.name rfl)
  have hst : isStr (prop (prop user "tenants") "subscription_status") "active" = false := by
    cases h : isStr (prop (prop user "tenants") "subscription_status") "active"
    · rfl
    · exact absurd ((isStr_iff _ _).1 h) hs
  refine ⟨un, ?_, ?_, ?_⟩
  · simp [handler, dispatch, handlePost_user env body message user phone kind hm hu, handleUser,
      hnm, hid, hun, hst, render, toStr, Run.ofOption, Run.andThen, Run.ret, Run.emit,
      sendWhatsAppMessage, inactiveNotice, eventReceived]
  · intro n hn hne
    rw [hn, orElse_str n _ hne] at hun
    simp [toStr] at hun
    exact hun.symm
  · intro h
    rcases h with h | h
    · simp [h, orElse, truthy, toStr] at hun
      exact hun.symm
    · have : truthy (prop user "name") = false := by
        cases hv : prop user "name" <;> simp_all [nullish, truthy]
      simp [orElse, this, toStr] at hun
      exact hun.symm

/-- C4 at a concrete event: an image message from the user `Asha`, whose
tenant is `past_due`, is answered with the one notice `Hi Asha, account
Inactive.`. -/
theorem inactive_tenant_notice_witness :
    MessageEvent (envelope (sampleMessage "image")) (sampleMessage "image")
      "15550001111" "image" ∧
    ResolvedUser (sampleEnv (sampleUser "past_due") .null .null "" none) "15550001111"
      (sampleUser "past_due") ∧
    subscriptionStatus (sampleUser "past_due") ≠ .str "active" ∧
    handler (sampleEnv (sampleUser "past_due") .null .null "" none)
        ⟨"POST", [], envelope (sampleMessage "image")⟩ =
      (⟨200, .str "EVENT_RECEIVED"⟩,
       [.userLookup (.str "15550001111"),
        .sendMessage (.str "15550001111") "Hi Asha, account Inactive."]) := by
  have hs : subscriptionStatus (sampleUser "past_due") ≠ .str "active" := by
    intro h
    have h2 : JSVal.str "past_due" = JSVal.str "active" := h
    exact absurd (JSVal.str.inj h2) (by decide)
  refine ⟨sample_event "image", sample_user "past_due" .null "" none, hs, ?_⟩
  obtain ⟨un, h, hn, _⟩ := inactive_tenant_notice
    (sampleEnv (sampleUser "past_due") .null .null "" none) []
    (envelope (sampleMessage "image")) (sampleMessage "image") (sampleUser "past_due")
    "15550001111" "image" (sample_event "image") (sample_user "past_due" .null "" none) hs
  have hun : un = "Asha" := hn "Asha" rfl (by decide)
  subst hun
  exact h

/-- C5: for every POST event whose message type is `"document"`, sent by a
resolved user with an active tenant, the external calls are the lookup and
exactly one outbound message, the fixed images-only notice addressed to the
sender; no media resolution, download, upload, model call or insert occurs,
and the answer is 200. -/
theorem document_rejected (env : Env) (query : List (String × JSVal))
    (body message user : JSVal) (phone : String)
    (hm : MessageEvent body message phone "document")
    (hu : ResolvedUser env phone user)
    (hs : subscriptionStatus user = .str "active") :
    handler env ⟨"POST", query, body⟩ =
      (⟨200, .str "PDF Skipped"⟩,
       [.userLookup (.str phone), .sendMessage (.str phone) pdfNotice]) := by
  obtain ⟨nm, hnm⟩ := Option.isSome_iff_exists.1 hu.name
  obtain ⟨idt, hid⟩ := Option.isSome_iff_exists.1 hu.id
  unfold subscriptionStatus at hs
  simp [handler, dispatch, handlePost_user env body message user phone "document" hm hu,
    handleUser, hnm, hid, hs, isStr, render, toStr, Run.ofOption, Run.andThen, Run.ret,
    Run.emit, sendWhatsAppMessage]

/-- C5 at a concrete event: a document message from an active user. -/
theorem document_rejected_witness :
    MessageEvent (envelope (sampleMessage "document")) (sampleMessage "document")
      "15550001111" "document" ∧
    ResolvedUser (sampleEnv (sampleUser "active") .null .null "" none) "15550001111"
      (sampleUser "active") ∧
    handler (sampleEnv (sampleUser "active") .null .null "" none)
        ⟨"POST", [], envelope (sampleMessage "document")⟩ =
      (⟨200, .str "PDF Skipped"⟩,
       [.userLookup (.str "15550001111"), .sendMessage (.str "15550001111") pdfNotice]) :=
  ⟨sample_event "document", sample_user "active" .null "" none,
   document_rejected (sampleEnv (sampleUser "active") .null .null "" none) []
     (envelope (sampleMessage "document")) (sampleMessage "document") (sampleUser "active")
     "15550001111" (sample_event "document") (sample_user "active" .null "" none) rfl⟩

/-- C6 as stated fails: the model answers a text that parses to a JSON object
whose `merchant_name` is an object with an own `toString` property; every
step up to the insert succeeds, then the conversion of the merchant name to
text inside the confirmation (line 214) throws, and the second outbound
message is the generic failure reply, not the confirmation. -/
theorem unrenderable_merchant_fails :
    (sampleEnv (sampleUser "active") .null .null oddText (some (.obj oddFields))).jsonParse
        (cleanup oddText) = some (.obj oddFields) ∧
    handler (sampleEnv (sampleUser "active") .null .null oddText (some (.obj oddFields)))
        ⟨"POST", [], envelope (sampleMessage "image")⟩ =
      (⟨200, .str "EVENT_RECEIVED"⟩,
       [.userLookup (.str "15550001111"),
        .sendMessage (.str "15550001111") "🤖 Reading your receipt...",
        .mediaInfo "media1",
        .download (.str "https://media.example/1"),
        .storageUpload "t1/1700000000000.jpg" [255, 216, 255] (.str "image/png"),
        .aiCall [255, 216, 255] (.str "image/png"),
        .recordInsert (.obj
          [("tenant_id", .str "t1"), ("user_id", .str "u1"), ("amount", .num .zero),
           ("merchant", .obj [("toString", .num .zero)]), ("status", .str "Pending"),
           ("image_url", .str "https://storage.example/receipts/t1/1700000000000.jpg"),
           ("metadata", .obj oddFields), ("category", .undefined)]),
        .sendMessage (.str "15550001111") "❌ Error reading file. Please try again."]) :=
  ⟨rfl, rfl⟩

/-- C6, amended: for every POST event whose message type is `"image"`, sent by
a resolved user with an active tenant, in which media resolution returns an
address, the download succeeds, the upload answers no error and the model
answers a text that parses to a JSON object whose merchant name and total
amount (or their fallbacks `Unknown` and `0`) convert to text: the effect
trace is the lookup, the processing acknowledgment, the media resolution, the
download, one upload, one model call, one record insert and then the
confirmation, in this order, and the answer is 200, whatever the insert
answers. -/
theorem image_pipeline_trace (env : Env) (query : List (String × JSVal))
    (body message user : JSVal) (phone mediaId : String)
    (mimeType url : JSVal) (buffer : Bytes) (filename raw : String)
    (fields : List (String × JSVal)) (merchantText amountText : String)
    (hm : MessageEvent body message phone "image")
    (hu : ResolvedUser env phone user)
    (hs : subscriptionStatus user = .str "active")
    (hf : MediaFetched env message user mediaId mimeType url buffer filename)
    (hup : truthy (env.upload filename buffer mimeType) = false)
    (hgen : env.generate buffer mimeType = .ok raw)
    (hparse : env.jsonParse (cleanup raw) = some (.obj fields))
    (hmt : toStr (orElse (prop (.obj fields) "merchant_name") (.str "Unknown")) =
      some merchantText)
    (hat : toStr (orElse (prop (.obj fields) "total_amount") (.num .zero)) = some amountText) :
    ∃ record : JSVal,
      handler env ⟨"POST", query, body⟩ =
        (⟨200, .str "EVENT_RECEIVED"⟩,
         [.userLookup (.str phone),
          .sendMessage (.str phone) "🤖 Reading your receipt...",
          .mediaInfo mediaId, .download url, .storageUpload filename buffer mimeType,
          .aiCall buffer mimeType,
          .recordInsert record,
          .sendMessage (.str phone)
            ("✅ Saved!\n\n🏪 " ++ merchantText ++ "\n💰 ₹" ++ amountText)]) :=
  ⟨_, handler_image_done env query body message user phone mediaId mimeType url buffer
      filename raw (.obj fields) merchantText amountText hm hu hs hf hup hgen
      (by simp [hparse]) rfl hmt hat⟩

/-- C6, amended, at a concrete event: the image message of an active user,
with the model answering the round-trip example of the specification. -/
theorem image_pipeline_trace_witness :
    MessageEvent (envelope (sampleMessage "image")) (sampleMessage "image")
      "15550001111" "image" ∧
    ResolvedUser (sampleEnv (sampleUser "active") .null .null acmeText (some (.obj acmeFields)))
      "15550001111" (sampleUser "active") ∧
    MediaFetched (sampleEnv (sampleUser "active") .null .null acmeText (some (.obj acmeFields)))
      (sampleMessage "image") (sampleUser "active") "media1" (.str "image/png")
      (.str "https://media.example/1") [255, 216, 255] "t1/1700000000000.jpg" ∧
    ∃ record : JSVal,
      handler (sampleEnv (sampleUser "active") .null .null acmeText (some (.obj acmeFields)))
          ⟨"POST", [], envelope (sampleMessage "image")⟩ =
        (⟨200, .str "EVENT_RECEIVED"⟩,
         [.userLookup (.str "15550001111"),
          .sendMessage (.str "15550001111") "🤖 Reading your receipt...",
          .mediaInfo "media1",
          .download (.str "https://media.example/1"),
          .storageUpload "t1/1700000000000.jpg" [255, 216, 255] (.str "image/png"),
          .aiCall [255, 216, 255] (.str "image/png"),
          .recordInsert record,
          .sendMessage (.str "15550001111") ("✅ Saved!\n\n🏪 " ++ "Acme" ++ "\n💰 ₹" ++ "42.5")]) :=
  ⟨sample_event "image", sample_user "active" .null acmeText (some (.obj acmeFields)),
   sample_media "image" "active" .null acmeText (some (.obj acmeFields)),
   image_pipeline_trace
     (sampleEnv (sampleUser "active") .null .null acmeText (some (.obj acmeFields))) []
     (envelope (sampleMessage "image")) (sampleMessage "image") (sampleUser "active")
     "15550001111" "media1" (.str "image/png") (.str "https://media.example/1")
     [255, 216, 255] "t1/1700000000000.jpg" acmeText acmeFields "Acme" "42.5"
     (sample_event "image") (sample_user "active" .null acmeText (some (.obj acmeFields)))
     rfl (sample_media "image" "active" .null acmeText (some (.obj acmeFields)))
     rfl rfl rfl rfl (by decide)⟩

/-- C7 as stated fails: the model answers a JSON object whose `merchant_name`
is the empty string (with a total amount and a category); the inserted record
has merchant `Unknown`, not the empty string, because of the fallback
`merchant_name || 'Unknown'` of line 204. -/
theorem empty_merchant_becomes_unknown :
    prop (.obj blankFields) "merchant_name" = .str "" ∧
    (sampleEnv (sampleUser "active") .null .null blankText (some (.obj blankFields))).jsonParse
        (cleanup blankText) = some (.obj blankFields) ∧
    handler (sampleEnv (sampleUser "active") .null .null blankText (some (.obj blankFields)))
        ⟨"POST", [], envelope (sampleMessage "image")⟩ =
      (⟨200, .str "EVENT_RECEIVED"⟩,
       [.userLookup (.str "15550001111"),
        .sendMessage (.str "15550001111") "🤖 Reading your receipt...",
        .mediaInfo "media1",
        .download (.str "https://media.example/1"),
        .storageUpload "t1/1700000000000.jpg" [255, 216, 255] (.str "image/png"),
        .aiCall [255, 216, 255] (.str "image/png"),
        .recordInsert (.obj
          [("tenant_id", .str "t1"), ("user_id", .str "u1"),
           ("amount", .num (.dec false 5 0 (by decide))),
           ("merchant", .str "Unknown"), ("status", .str "Pending"),
           ("image_url", .str "https://storage.example/receipts/t1/1700000000000.jpg"),
           ("metadata", .obj blankFields), ("category", .str "Travel")]),
        .sendMessage (.str "15550001111") "✅ Saved!\n\n🏪 Unknown\n💰 ₹5"]) :=
  ⟨rfl, rfl, rfl⟩

/-- C7, amended: for every model output that, after the clean-up, parses to a
JSON object carrying a non-empty `merchant_name` string `m`, a `total_amount`
number `a` and a `category` `c`, the record inserted by the image pipeline has
amount `a`, merchant `m`, category `c`, status `Pending`, the public address
of the stored object as `image_url` and the whole parsed object as
`metadata`, and the text of the confirmation reply contains `m` and the
rendering of `a`. -/
theorem extracted_record_inserted (env : Env) (query : List (String × JSVal))
    (body message user : JSVal) (phone mediaId : String)
    (mimeType url : JSVal) (buffer : Bytes) (filename raw : String)
    (fields : List (String × JSVal)) (m : String) (a : JSNum) (c : JSVal)
    (hm : MessageEvent body message phone "image")
    (hu : ResolvedUser env phone user)
    (hs : subscriptionStatus user = .str "active")
    (hf : MediaFetched env message user mediaId mimeType url buffer filename)
    (hup : truthy (env.upload filename buffer mimeType) = false)
    (hgen : env.generate buffer mimeType = .ok raw)
    (hparse : env.jsonParse (cleanup raw) = some (.obj fields))
    (hmerchant : prop (.obj fields) "merchant_name" = .str m)
    (hamount : prop (.obj fields) "total_amount" = .num a)
    (hcategory : prop (.obj fields) "category" = c)
    (hne : m ≠ "") :
    ∃ (record : JSVal) (reply : String),
      handler env ⟨"POST", query, body⟩ =
        (⟨200, .str "EVENT_RECEIVED"⟩,
         [.userLookup (.str phone),
          .sendMessage (.str phone) "🤖 Reading your receipt...",
          .mediaInfo mediaId, .download url, .storageUpload filename buffer mimeType,
          .aiCall buffer mimeType,
          .recordInsert record,
          .sendMessage (.str phone) reply]) ∧
      prop record "amount" = .num a ∧
      prop record "merchant" = .str m ∧
      prop record "category" = c ∧
      prop record "status" = .str "Pending" ∧
      prop record "image_url" = .str (env.publicUrl filename) ∧
      prop record "metadata" = .obj fields ∧
      Contains reply m ∧
      Contains reply (renderNum a) := by
  have h1 : orElse (prop (.obj fields) "merchant_name") (.str "Unknown") = .str m := by
    rw [hmerchant]; exact orElse_str m _ hne
  have h2 : orElse (prop (.obj fields) "total_amount") (.num .zero) = .num a := by
    rw [hamount]; exact orElse_num a
  refine ⟨_, confirmation m (renderNum a),
    handler_image_done env query body message user phone mediaId mimeType url buffer
      filename raw (.obj fields) m (renderNum a) hm hu hs hf hup hgen
      (by simp [hparse]) rfl (by rw [h1]; rfl) (by rw [h2]; rfl), ?_, ?_, ?_, rfl, rfl, rfl,
    (confirmation_contains m (renderNum a)).1, (confirmation_contains m (renderNum a)).2⟩
  · show orElse (prop (.obj fields) "total_amount") (.num .zero) = .num a
    exact h2
  · show orElse (prop (.obj fields) "merchant_name") (.str "Unknown") = .str m
    exact h1
  · exact hcategory

/-- C7, amended, at the round-trip example of the specification: the model
output with merchant `Acme`, total 42.5 and category `Travel` gives a record
with amount 42.5, merchant `Acme`, category `Travel`, and a reply containing
`Acme` and `42.5`. -/
theorem extracted_record_inserted_witness :
    (sampleEnv (sampleUser "active") .null .null acmeText (some (.obj acmeFields))).jsonParse
        (cleanup acmeText) = some (.obj acmeFields) ∧
    ∃ (record : JSVal) (reply : String),
      handler (sampleEnv (sampleUser "active") .null .null acmeText (some (.obj acmeFields)))
          ⟨"POST", [], envelope (sampleMessage "image")⟩ =
        (⟨200, .str "EVENT_RECEIVED"⟩,
         [.userLookup (.str "15550001111"),
          .sendMessage (.str "15550001111") "🤖 Reading your receipt...",
          .mediaInfo "media1",
          .download (.str "https://media.example/1"),
          .storageUpload "t1/1700000000000.jpg" [255, 216, 255] (.str "image/png"),
          .aiCall [255, 216, 255] (.str "image/png"),
          .recordInsert record,
          .sendMessage (.str "15550001111") reply]) ∧
      prop record "amount" = .num (.dec false 425 (-1) (by decide)) ∧
      prop record "merchant" = .str "Acme" ∧
      prop record "category" = .str "Travel" ∧
      prop record "status" = .str "Pending" ∧
      prop record "image_url" =
        .str "https://storage.example/receipts/t1/1700000000000.jpg" ∧
      prop record "metadata" = .obj acmeFields ∧
      Contains reply "Acme" ∧
      Contains reply "42.5" :=
  ⟨rfl,
   extracted_record_inserted
     (sampleEnv (sampleUser "active") .null .null acmeText (some (.obj acmeFields))) []
     (envelope (sampleMessage "image")) (sampleMessage "image") (sampleUser "active")
     "15550001111" "media1" (.str "image/png") (.str "https://media.example/1")
     [255, 216, 255] "t1/1700000000000.jpg" acmeText acmeFields "Acme"
     (.dec false 425 (-1) (by decide)) (.str "Travel")
     (sample_event "image") (sample_user "active" .null acmeText (some (.obj acmeFields)))
     rfl (sample_media "image" "active" .null acmeText (some (.obj acmeFields)))
     rfl rfl rfl rfl rfl rfl (by decide)⟩

/-- C8: for every model output that is not valid JSON after the clean-up, the
image pipeline does not throw and does not send the generic failure reply: it
substitutes the sentinel object, performs exactly one record insert, with
merchant `Unreadable` and amount 0, then sends the confirmation reply to the
sender, and the answer is 200. -/
theorem parse_failure_sentinel (env : Env) (query : List (String × JSVal))
    (body message user : JSVal) (phone mediaId : String)
    (mimeType url : JSVal) (buffer : Bytes) (filename raw : String)
    (hm : MessageEvent body message phone "image")
    (hu : ResolvedUser env phone user)
    (hs : subscriptionStatus user = .str "active")
    (hf : MediaFetched env message user mediaId mimeType url buffer filename)
    (hup : truthy (env.upload filename buffer mimeType) = false)
    (hgen : env.generate buffer mimeType = .ok raw)
    (hparse : env.jsonParse (cleanup raw) = none) :
    ∃ record : JSVal,
      handler env ⟨"POST", query, body⟩ =
        (⟨200, .str "EVENT_RECEIVED"⟩,
         [.userLookup (.str phone),
          .sendMessage (.str phone) "🤖 Reading your receipt...",
          .mediaInfo mediaId, .download url, .storageUpload filename buffer mimeType,
          .aiCall buffer mimeType,
          .recordInsert record,
          .sendMessage (.str phone) "✅ Saved!\n\n🏪 Unreadable\n💰 ₹0"]) ∧
      prop record "merchant" = .str "Unreadable" ∧
      prop record "amount" = .num .zero ∧
      prop record "metadata" =
        .obj [("merchant_name", .str "Unreadable"), ("total_amount", .num .zero)] := by
  refine ⟨transactionRecord user sentinel (env.publicUrl filename)
    (prop sentinel "total_amount") (prop sentinel "merchant_name") (prop sentinel "category"),
    ?_, rfl, rfl, rfl⟩
  exact handler_image_done env query body message user phone mediaId mimeType url buffer
    filename raw sentinel "Unreadable" "0" hm hu hs hf hup hgen (by simp [hparse]) rfl
    (by decide) (by decide)

/-- C8 at a concrete event: the model answers `I cannot read this image.`,
which `JSON.parse` rejects. -/
theorem parse_failure_sentinel_witness :
    (sampleEnv (sampleUser "active") .null .null "I cannot read this image." none).jsonParse
        (cleanup "I cannot read this image.") = none ∧
    ∃ record : JSVal,
      handler (sampleEnv (sampleUser "active") .null .null "I cannot read this image." none)
          ⟨"POST", [], envelope (sampleMessage "image")⟩ =
        (⟨200, .str "EVENT_RECEIVED"⟩,
         [.userLookup (.str "15550001111"),
          .sendMessage (.str "15550001111") "🤖 Reading your receipt...",
          .mediaInfo "media1",
          .download (.str "https://media.example/1"),
          .storageUpload "t1/1700000000000.jpg" [255, 216, 255] (.str "image/png"),
          .aiCall [255, 216, 255] (.str "image/png"),
          .recordInsert record,
          .sendMessage (.str "15550001111") "✅ Saved!\n\n🏪 Unreadable\n💰 ₹0"]) ∧
      prop record "merchant" = .str "Unreadable" ∧
      prop record "amount" = .num .zero ∧
      prop record "metadata" =
        .obj [("merchant_name", .str "Unreadable"), ("total_amount", .num .zero)] :=
  ⟨rfl,
   parse_failure_sentinel
     (sampleEnv (sampleUser "active") .null .null "I cannot read this image." none) []
     (envelope (sampleMessage "image")) (sampleMessage "image") (sampleUser "active")
     "15550001111" "media1" (.str "image/png") (.str "https://media.example/1")
     [255, 216, 255] "t1/1700000000000.jpg" "I cannot read this image."
     (sample_event "image")
     (sample_user "active" .null "I cannot read this image." none)
     rfl (sample_media "image" "active" .null "I cannot read this image." none)
     rfl rfl rfl⟩

/-- C9: for every image message from a resolved user with an active tenant in
which the storage upload answers an error, no model call and no record insert
occurs, exactly one generic failure reply is sent to the sender, no
confirmation is sent, and the answer is 200; and, in every run of the handler
(any outside world, any request), a record insert occurs only after a storage
upload that answered no error. -/
theorem upload_failure_stops_pipeline (env : Env) (query : List (String × JSVal))
    (body message user : JSVal) (phone mediaId : String)
    (mimeType url : JSVal) (buffer : Bytes) (filename : String)
    (hm : MessageEvent body message phone "image")
    (hu : ResolvedUser env phone user)
    (hs : subscriptionStatus user = .str "active")
    (hf : MediaFetched env message user mediaId mimeType url buffer filename)
    (hup : truthy (env.upload filename buffer mimeType) = true) :
    handler env ⟨"POST", query, body⟩ =
      (⟨200, .str "EVENT_RECEIVED"⟩,
       [.userLookup (.str phone),
        .sendMessage (.str phone) "🤖 Reading your receipt...",
        .mediaInfo mediaId, .download url, .storageUpload filename buffer mimeType,
        .sendMessage (.str phone) "❌ Error reading file. Please try again."]) ∧
    (∀ (world : Env) (req : Request) (before after : List Effect) (record : JSVal),
      (handler world req).2 = before ++ .recordInsert record :: after →
      ∃ name bytes contentType,
        Effect.storageUpload name bytes contentType ∈ before ∧
        truthy (world.upload name bytes contentType) = false) := by
  constructor
  · rw [handler_image env query body message user phone mediaId mimeType url buffer filename
      hm hu hs hf]
    rw [processImage_upload env message user (.str phone) mediaId mimeType url buffer filename
      hf hup]
    simp [Run.tryCatch, sendWhatsAppMessage, render, toStr, Run.ofOption, Run.andThen, Run.ret,
      Run.emit, eventReceived, processingNotice, failureNotice]
  · intro world req before after record h
    exact insert_after_upload world req before after record h

/-- C9 at a concrete event: the upload answers the error `Bucket not found`. -/
theorem upload_failure_stops_pipeline_witness :
    truthy ((sampleEnv (sampleUser "active") .null
      (.obj [("message", .str "Bucket not found")]) "" none).upload
        "t1/1700000000000.jpg" [255, 216, 255] (.str "image/png")) = true ∧
    handler (sampleEnv (sampleUser "active") .null
        (.obj [("message", .str "Bucket not found")]) "" none)
        ⟨"POST", [], envelope (sampleMessage "image")⟩ =
      (⟨200, .str "EVENT_RECEIVED"⟩,
       [.userLookup (.str "15550001111"),
        .sendMessage (.str "15550001111") "🤖 Reading your receipt...",
        .mediaInfo "media1",
        .download (.str "https://media.example/1"),
        .storageUpload "t1/1700000000000.jpg" [255, 216, 255] (.str "image/png"),
        .sendMessage (.str "15550001111") "❌ Error reading file. Please try again."]) :=
  ⟨rfl,
   (upload_failure_stops_pipeline
     (sampleEnv (sampleUser "active") .null (.obj [("message", .str "Bucket not found")]) "" none)
     [] (envelope (sampleMessage "image")) (sampleMessage "image") (sampleUser "active")
     "15550001111" "media1" (.str "image/png") (.str "https://media.example/1")
     [255, 216, 255] "t1/1700000000000.jpg"
     (sample_event "image")
     (sample_user "active" (.obj [("message", .str "Bucket not found")]) "" none)
     rfl
     (sample_media "image" "active" (.obj [("message", .str "Bucket not found")]) "" none)
     rfl).1⟩

/-- C10 as stated fails: a JSON text holding three backticks inside a string
loses them in the clean-up, so the clean-up of the text, fenced or not, is
not the trimmed text. -/
theorem cleanup_removes_inner_fence :
    innerFenceText = "\x7b\"merchant_name\":\"a```b\"\x7d" ∧
    cleanup innerFenceText = "\x7b\"merchant_name\":\"ab\"\x7d" ∧
    trim innerFenceText = innerFenceText ∧
    cleanup innerFenceText ≠ trim innerFenceText ∧
    cleanup ("```json\n" ++ innerFenceText ++ "\n```") ≠ trim innerFenceText := by
  decide

/-- C10, amended: for every text `t`, the clean-up of `t` wrapped in a fence
(tagged `json` or bare) equals the clean-up of `t` unfenced, so a fenced and
an unfenced response are parsed to the same JSON value; and when `t` holds no
three consecutive backticks, this clean-up is `t` with surrounding white
space trimmed. -/
theorem cleanup_fenced_eq_unfenced (t : String) :
    cleanup ("```json\n" ++ t ++ "\n```") = cleanup t ∧
    cleanup ("```\n" ++ t ++ "\n```") = cleanup t ∧
    (hasFence t.data = false → cleanup t = trim t) ∧
    (∀ env : Env,
      env.jsonParse (cleanup ("```json\n" ++ t ++ "\n```")) = env.jsonParse (cleanup t) ∧
      env.jsonParse (cleanup ("```\n" ++ t ++ "\n```")) = env.jsonParse (cleanup t)) := by
  have h1 : cleanup ("```json\n" ++ t ++ "\n```") = cleanup t := by
    unfold cleanup
    rw [String.data_append, String.data_append, stripFences_fenced_json, trimChars_wrapped]
  have h2 : cleanup ("```\n" ++ t ++ "\n```") = cleanup t := by
    unfold cleanup
    rw [String.data_append, String.data_append, stripFences_fenced_bare, trimChars_wrapped]
  refine ⟨h1, h2, ?_, fun env => ⟨by rw [h1], by rw [h2]⟩⟩
  intro h
  unfold cleanup trim
  rw [stripFences_of_no_fence _ h]

/-- C10, amended, at the round-trip example of the specification: the text
holds no fence, and its fenced form is cleaned to the text itself. -/
theorem cleanup_fenced_eq_unfenced_witness :
    hasFence acmeText.data = false ∧
    cleanup ("```json\n" ++ acmeText ++ "\n```") = trim acmeText ∧
    trim acmeText = acmeText :=
  ⟨by decide,
   (cleanup_fenced_eq_unfenced acmeText).1.trans
     ((cleanup_fenced_eq_unfenced acmeText).2.2.1 (by decide)),
   by decide⟩

end ExpenseBot
